import Mathlib

/-!
Verification of the sf2parser SoundFont 2 decoder (src/sf2parser.py).

The decoder is embedded shallowly: the byte cursor becomes a pair of byte
lists (unread file bytes plus the look ahead buffer), each Python method
becomes a Lean function in explicit state passing style over `Except`, and
each Python runtime exception or raised `Exception` becomes a constructor
of `Err` carrying the data the exception message cites.  Loops are written
with a structural fuel parameter so that every definition computes by
kernel reduction; callers pass fuel that strictly dominates the number of
iterations the source loop can perform.
-/

/-- Errors of the decoder.  Message-bearing `raise Exception(...)` sites are
represented by constructors carrying the values the f-string interpolates;
Python runtime errors (struct.error, IndexError, TypeError, AttributeError,
UnicodeDecodeError, numpy ValueError) get their own constructors. -/
inductive Err where
  /-- struct.unpack on a buffer shorter than the requested width. -/
  | structError : Err
  /-- sequence index out of range. -/
  | indexError : Err
  /-- len applied to None. -/
  | typeError : Err
  /-- attribute lookup of append on a dict. -/
  | attributeError : Err
  /-- bytes.decode failure. -/
  | unicodeDecodeError : Err
  /-- numpy frombuffer on a buffer whose size is not a multiple of the item size,
  or a numpy broadcast mismatch. -/
  | valueError : Err
  /-- Chunk TAG size SIZE is not a multiple of WIDTH. -/
  | sizeNotMultiple (tag : String) (size width : Nat) : Err
  /-- FIELD values are not monotonically increasing. -/
  | orderingViolation (field : String) : Err
  /-- Expected form EXPECTED but found FOUND. -/
  | badForm (expected found : String) : Err
  /-- Expected chunk EXPECTED but found chunk FOUND. -/
  | wrongChunk (expected found : String) : Err
  /-- Unknown or unexpected chunk TAG. -/
  | unknownChunk (tag : String) : Err
  /-- Missing chunk or chunks named by WHAT. -/
  | missingChunks (what : String) : Err
  /-- The FIELD index VALUE is outside the count BOUND. -/
  | outOfRange (field : String) (value bound : Nat) : Err
  /-- Exceeded the chunk length for TAG. -/
  | exceededLength (tag : String) : Err
  /-- Chunk TAG has illegal size SIZE. -/
  | illegalSize (tag : String) (size : Nat) : Err
  /-- Fuel exhaustion marker of the embedding; never reached with the fuel
  the top level functions supply. -/
  | fuel : Err
deriving DecidableEq

/-- The reader state: `file` is the unread tail of the byte stream behind
`self.fp`, `buffer` is the look ahead `self.buffer`. -/
structure Cursor where
  file : List Nat
  buffer : List Nat
deriving DecidableEq

/-- A cursor at the start of a byte stream, with an empty buffer, as after
`SF2Parser.__init__`. -/
def mkCursor (bs : List Nat) : Cursor := ⟨bs, []⟩

/-- The configuration flags taken by `SF2Parser.__init__`. -/
structure Config where
  ignore_errors : Bool
  ignoreIndexOutOfRange : Bool
deriving DecidableEq

/-- The default argument values of `SF2Parser.__init__`:
`ignore_errors = False`, `ignoreIndexOutOfRange = True`. -/
def defaultConfig : Config := ⟨false, true⟩

/-- `check(length)`: top up the buffer from the stream when it holds fewer
than `length` bytes; `fp.read` returns at most the requested count. -/
def check (c : Cursor) (length : Nat) : Cursor :=
  if c.buffer.length < length then
    { file := c.file.drop (length - c.buffer.length),
      buffer := c.buffer ++ c.file.take (length - c.buffer.length) }
  else c

/-- Little endian value of two bytes. -/
def le2 (b0 b1 : Nat) : Nat := b0 + 256 * b1

/-- Little endian value of four bytes. -/
def le4 (b0 b1 b2 b3 : Nat) : Nat := b0 + 256 * b1 + 65536 * b2 + 16777216 * b3

/-- Two's complement reading of a 16 bit unsigned value, as struct '<h'. -/
def toSigned16 (n : Nat) : Int := if n < 32768 then (n : Int) else (n : Int) - 65536

/-- Two's complement reading of an 8 bit unsigned value, as struct 'b'. -/
def toSigned8 (n : Nat) : Int := if n < 128 then (n : Int) else (n : Int) - 256

/-- Wrap an integer into signed 16 bit range, the overflow behaviour of
numpy int16 arithmetic. -/
def wrap16s (z : Int) : Int :=
  let m := z % 65536
  if m < 32768 then m else m - 65536

/-- bytes.decode of the ASCII plane: every byte below 128 maps to its
character, any other byte is rejected.  All tag and name bytes the decoder
meets in this development are ASCII. -/
def decodeAscii : List Nat → Option String
  | [] => some ""
  | b :: bs =>
    if b ≤ 127 then (decodeAscii bs).map (fun s => String.mk (Char.ofNat b :: s.data))
    else none

/-- `SHORT()`: struct.unpack('<h', buffer[:2]) after check(2). -/
def SHORT (c : Cursor) : Except Err (Int × Cursor) :=
  let c := check c 2
  match c.buffer with
  | b0 :: b1 :: rest => .ok (toSigned16 (le2 b0 b1), { c with buffer := rest })
  | _ => .error .structError

/-- `WORD()`: struct.unpack('<H', buffer[:2]) after check(2). -/
def WORD (c : Cursor) : Except Err (Nat × Cursor) :=
  let c := check c 2
  match c.buffer with
  | b0 :: b1 :: rest => .ok (le2 b0 b1, { c with buffer := rest })
  | _ => .error .structError

/-- `DWORD()`: struct.unpack('<L', buffer[:4]) after check(4). -/
def DWORD (c : Cursor) : Except Err (Nat × Cursor) :=
  let c := check c 4
  match c.buffer with
  | b0 :: b1 :: b2 :: b3 :: rest => .ok (le4 b0 b1 b2 b3, { c with buffer := rest })
  | _ => .error .structError

/-- `FOURCC()`: decode buffer[0:4] after check(4).  The slice may be shorter
than four bytes near the end of the stream, in which case the decode still
succeeds on the partial slice. -/
def FOURCC (c : Cursor) : Except Err (String × Cursor) :=
  let c := check c 4
  match decodeAscii (c.buffer.take 4) with
  | some s => .ok (s, { c with buffer := c.buffer.drop 4 })
  | none => .error .unicodeDecodeError

/-- `BYTE()`: struct.unpack('B', buffer[:1]) after check(1). -/
def BYTE (c : Cursor) : Except Err (Nat × Cursor) :=
  let c := check c 1
  match c.buffer with
  | b :: rest => .ok (b, { c with buffer := rest })
  | _ => .error .structError

/-- `CHAR()`: struct.unpack('b', buffer[:1]) after check(1). -/
def CHAR (c : Cursor) : Except Err (Int × Cursor) :=
  let c := check c 1
  match c.buffer with
  | b :: rest => .ok (toSigned8 b, { c with buffer := rest })
  | _ => .error .structError

/-- The terminator scan of `ZSTR`: `while buffer[i] != 0 and i < length`.
The byte access is evaluated before the bound test, exactly as in the
source, so the scan can read one byte past the field width and raises
IndexError when that byte does not exist. -/
def zscan (buf : List Nat) (length : Nat) (i : Nat) (fuelN : Nat) : Except Err Nat :=
  match fuelN with
  | 0 => .error .fuel
  | f + 1 =>
    match buf.get? i with
    | none => .error .indexError
    | some b => if b ≠ 0 ∧ i < length then zscan buf length (i + 1) f else .ok i

/-- `ZSTR(length)`: scan for a null terminator, set the fault flag when the
scan ran to the full width or stopped immediately, decode the prefix and
drop exactly `length` bytes from the buffer. -/
def ZSTR (c : Cursor) (length : Nat) : Except Err ((String × Bool) × Cursor) :=
  let c := check c length
  match zscan c.buffer length 0 (length + 1) with
  | .error e => .error e
  | .ok n =>
    let fault : Bool := n == length || n == 0
    match decodeAscii (c.buffer.take n) with
    | some s => .ok ((s, fault), { c with buffer := c.buffer.drop length })
    | none => .error .unicodeDecodeError

/-- `chunk_header()`: a FOURCC tag followed by a DWORD size. -/
def chunk_header (c : Cursor) : Except Err ((String × Nat) × Cursor) := do
  let (ckID, c) ← FOURCC c
  let (ckSize, c) ← DWORD c
  .ok ((ckID, ckSize), c)

/-- The Python test `last != None and last > x` on an optional tracker. -/
def gtOpt (last : Option Nat) (x : Nat) : Bool :=
  match last with
  | none => false
  | some l => decide (x < l)

/-- One record of the phdr chunk. -/
structure PresetHeader where
  achPresetName : String
  wPreset : Nat
  wBank : Nat
  wPresetBagNdx : Nat
  dwLibrary : Nat
  dwGenre : Nat
  dwMorphology : Nat
deriving DecidableEq

/-- One record of the pbag chunk. -/
structure PresetBag where
  wGenNdx : Nat
  wModNdx : Nat
deriving DecidableEq

/-- One record of the pmod or imod chunk. -/
structure ModList where
  sfModSrcOper : Nat
  sfModDestOper : Nat
  modAmount : Int
  sfModAmtSrcOper : Nat
  sfModTransOper : Nat
deriving DecidableEq

/-- One record of the pgen or igen chunk. -/
structure GenList where
  sfGenOper : Nat
  genAmount : Nat
deriving DecidableEq

/-- One record of the inst chunk. -/
structure InstRec where
  achInstName : String
  wInstBagNdx : Nat
deriving DecidableEq

/-- One record of the ibag chunk. -/
structure InstBag where
  wInstGenNdx : Nat
  wInstModNdx : Nat
deriving DecidableEq

/-- One record of the shdr chunk. -/
structure SampleHdr where
  achSampleName : String
  dwStart : Nat
  dwEnd : Nat
  dwStartloop : Nat
  dwEndloop : Nat
  dwSampleRate : Nat
  byOriginalPitch : Nat
  chPitchCorrection : Int
  wSampleLink : Nat
  sfSampleType : Nat
deriving DecidableEq

/-- The record loop of `parse_phdr`, tracking the previous wPresetBagNdx. -/
def parse_phdr_loop (c : Cursor) (ckSize : Nat) (acc : List PresetHeader)
    (lastNdx : Option Nat) (fuelN : Nat) : Except Err (List PresetHeader × Cursor) :=
  if ckSize > 0 then
    match fuelN with
    | 0 => .error .fuel
    | f + 1 => do
      let c := check c 38
      let ((name, _), c) ← ZSTR c 20
      let (wPreset, c) ← WORD c
      let (wBank, c) ← WORD c
      let (wPresetBagNdx, c) ← WORD c
      let (dwLibrary, c) ← DWORD c
      let (dwGenre, c) ← DWORD c
      let (dwMorphology, c) ← DWORD c
      if gtOpt lastNdx wPresetBagNdx then .error (.orderingViolation "wPresetBagNdx")
      else
        parse_phdr_loop c (ckSize - 38)
          (acc ++ [⟨name, wPreset, wBank, wPresetBagNdx, dwLibrary, dwGenre, dwMorphology⟩])
          (some wPresetBagNdx) f
  else .ok (acc, c)

/-- `parse_phdr(ckSize)`. -/
def parse_phdr (c : Cursor) (ckSize : Nat) : Except Err (List PresetHeader × Cursor) :=
  if ckSize % 38 ≠ 0 then .error (.sizeNotMultiple "phdr" ckSize 38)
  else parse_phdr_loop c ckSize [] none (ckSize + 1)

/-- The record loop of `parse_pbag`.  Source line 151 writes the just read
wModNdx into lastGenNdx (not lastModNdx), so lastModNdx is passed along
unchanged and the generator tracker ends each iteration holding the
modulator index; this loop reproduces that. -/
def parse_pbag_loop (c : Cursor) (ckSize : Nat) (acc : List PresetBag)
    (lastGenNdx lastModNdx : Option Nat) (fuelN : Nat) : Except Err (List PresetBag × Cursor) :=
  if ckSize > 0 then
    match fuelN with
    | 0 => .error .fuel
    | f + 1 => do
      let c := check c 4
      let (wGenNdx, c) ← WORD c
      let (wModNdx, c) ← WORD c
      if gtOpt lastGenNdx wGenNdx then .error (.orderingViolation "wGenNdx")
      else
        let _lastGenNdx := some wGenNdx
        if gtOpt lastModNdx wModNdx then .error (.orderingViolation "wModNdx")
        else
          let lastGenNdx := some wModNdx
          parse_pbag_loop c (ckSize - 4) (acc ++ [⟨wGenNdx, wModNdx⟩]) lastGenNdx lastModNdx f
  else .ok (acc, c)

/-- `parse_pbag(ckSize)`. -/
def parse_pbag (c : Cursor) (ckSize : Nat) : Except Err (List PresetBag × Cursor) :=
  if ckSize % 4 ≠ 0 then .error (.sizeNotMultiple "pbag" ckSize 4)
  else parse_pbag_loop c ckSize [] none none (ckSize + 1)

/-- The record loop shared by `parse_pmod` and `parse_imod`; ten bytes per
record, no ordering constraint. -/
def parse_mod_loop (c : Cursor) (ckSize : Nat) (acc : List ModList) (fuelN : Nat) :
    Except Err (List ModList × Cursor) :=
  if ckSize > 0 then
    match fuelN with
    | 0 => .error .fuel
    | f + 1 => do
      let c := check c 10
      let (src, c) ← WORD c
      let (dest, c) ← WORD c
      let (amount, c) ← SHORT c
      let (amtSrc, c) ← WORD c
      let (transOper, c) ← WORD c
      parse_mod_loop c (ckSize - 10) (acc ++ [⟨src, dest, amount, amtSrc, transOper⟩]) f
  else .ok (acc, c)

/-- `parse_pmod(ckSize)`. -/
def parse_pmod (c : Cursor) (ckSize : Nat) : Except Err (List ModList × Cursor) :=
  if ckSize % 10 ≠ 0 then .error (.sizeNotMultiple "pmod" ckSize 10)
  else parse_mod_loop c ckSize [] (ckSize + 1)

/-- `parse_imod(ckSize)`. -/
def parse_imod (c : Cursor) (ckSize : Nat) : Except Err (List ModList × Cursor) :=
  if ckSize % 10 ≠ 0 then .error (.sizeNotMultiple "imod" ckSize 10)
  else parse_mod_loop c ckSize [] (ckSize + 1)

/-- The record loop shared by `parse_pgen` and `parse_igen`; four bytes per
record, no ordering constraint. -/
def parse_gen_loop (c : Cursor) (ckSize : Nat) (acc : List GenList) (fuelN : Nat) :
    Except Err (List GenList × Cursor) :=
  if ckSize > 0 then
    match fuelN with
    | 0 => .error .fuel
    | f + 1 => do
      let c := check c 4
      let (oper, c) ← WORD c
      let (amount, c) ← WORD c
      parse_gen_loop c (ckSize - 4) (acc ++ [⟨oper, amount⟩]) f
  else .ok (acc, c)

/-- `parse_pgen(ckSize)`. -/
def parse_pgen (c : Cursor) (ckSize : Nat) : Except Err (List GenList × Cursor) :=
  if ckSize % 4 ≠ 0 then .error (.sizeNotMultiple "pgen" ckSize 4)
  else parse_gen_loop c ckSize [] (ckSize + 1)

/-- `parse_igen(ckSize)`.  The size error message in the source names the
chunk as pigen, a tag that does not exist, and that spelling is kept here. -/
def parse_igen (c : Cursor) (ckSize : Nat) : Except Err (List GenList × Cursor) :=
  if ckSize % 4 ≠ 0 then .error (.sizeNotMultiple "pigen" ckSize 4)
  else parse_gen_loop c ckSize [] (ckSize + 1)

/-- The record loop of `parse_inst`, tracking the previous wInstBagNdx. -/
def parse_inst_loop (c : Cursor) (ckSize : Nat) (acc : List InstRec)
    (lastNdx : Option Nat) (fuelN : Nat) : Except Err (List InstRec × Cursor) :=
  if ckSize > 0 then
    match fuelN with
    | 0 => .error .fuel
    | f + 1 => do
      let c := check c 22
      let ((name, _), c) ← ZSTR c 20
      let (wInstBagNdx, c) ← WORD c
      if gtOpt lastNdx wInstBagNdx then .error (.orderingViolation "wInstBagNdx")
      else parse_inst_loop c (ckSize - 22) (acc ++ [⟨name, wInstBagNdx⟩]) (some wInstBagNdx) f
  else .ok (acc, c)

/-- `parse_inst(ckSize)`. -/
def parse_inst (c : Cursor) (ckSize : Nat) : Except Err (List InstRec × Cursor) :=
  if ckSize % 22 ≠ 0 then .error (.sizeNotMultiple "inst" ckSize 22)
  else parse_inst_loop c ckSize [] none (ckSize + 1)

/-- The record loop of `parse_ibag`; here both trackers are updated
correctly, unlike the pbag loop. -/
def parse_ibag_loop (c : Cursor) (ckSize : Nat) (acc : List InstBag)
    (lastGenNdx lastModNdx : Option Nat) (fuelN : Nat) : Except Err (List InstBag × Cursor) :=
  if ckSize > 0 then
    match fuelN with
    | 0 => .error .fuel
    | f + 1 => do
      let c := check c 4
      let (wInstGenNdx, c) ← WORD c
      let (wInstModNdx, c) ← WORD c
      if gtOpt lastGenNdx wInstGenNdx then .error (.orderingViolation "wInstGenNdx")
      else
        if gtOpt lastModNdx wInstModNdx then .error (.orderingViolation "wInstModNdx")
        else
          parse_ibag_loop c (ckSize - 4) (acc ++ [⟨wInstGenNdx, wInstModNdx⟩])
            (some wInstGenNdx) (some wInstModNdx) f
  else .ok (acc, c)

/-- `parse_ibag(ckSize)`. -/
def parse_ibag (c : Cursor) (ckSize : Nat) : Except Err (List InstBag × Cursor) :=
  if ckSize % 4 ≠ 0 then .error (.sizeNotMultiple "ibag" ckSize 4)
  else parse_ibag_loop c ckSize [] none none (ckSize + 1)

/-- The record loop of `parse_shdr`; forty six bytes per record, no
ordering constraint. -/
def parse_shdr_loop (c : Cursor) (ckSize : Nat) (acc : List SampleHdr) (fuelN : Nat) :
    Except Err (List SampleHdr × Cursor) :=
  if ckSize > 0 then
    match fuelN with
    | 0 => .error .fuel
    | f + 1 => do
      let c := check c 46
      let ((name, _), c) ← ZSTR c 20
      let (dwStart, c) ← DWORD c
      let (dwEnd, c) ← DWORD c
      let (dwStartloop, c) ← DWORD c
      let (dwEndloop, c) ← DWORD c
      let (dwSampleRate, c) ← DWORD c
      let (byOriginalPitch, c) ← BYTE c
      let (chPitchCorrection, c) ← CHAR c
      let (wSampleLink, c) ← WORD c
      let (sfSampleType, c) ← WORD c
      parse_shdr_loop c (ckSize - 46)
        (acc ++ [⟨name, dwStart, dwEnd, dwStartloop, dwEndloop, dwSampleRate,
                  byOriginalPitch, chPitchCorrection, wSampleLink, sfSampleType⟩]) f
  else .ok (acc, c)

/-- `parse_shdr(ckSize)`. -/
def parse_shdr (c : Cursor) (ckSize : Nat) : Except Err (List SampleHdr × Cursor) :=
  if ckSize % 46 ≠ 0 then .error (.sizeNotMultiple "shdr" ckSize 46)
  else parse_shdr_loop c ckSize [] (ckSize + 1)

/-- The nine sub chunk aggregate built by `parse_pdta`; every field starts
as None, mirroring the dict initialised with all nine keys. -/
structure Pdta where
  phdr : Option (List PresetHeader)
  pbag : Option (List PresetBag)
  pmod : Option (List ModList)
  pgen : Option (List GenList)
  inst : Option (List InstRec)
  ibag : Option (List InstBag)
  imod : Option (List ModList)
  igen : Option (List GenList)
  shdr : Option (List SampleHdr)
deriving DecidableEq

/-- The initial pdta dict: all nine keys present, every value None. -/
def pdta0 : Pdta := ⟨none, none, none, none, none, none, none, none, none⟩

/-- The key set of the pdta dict.  The dict is created with all nine keys,
so the membership tests written over it in the source always consult this
fixed set, never which chunks were actually decoded. -/
def pdtaKeys : List String :=
  ["phdr", "pbag", "pmod", "pgen", "inst", "ibag", "imod", "igen", "shdr"]

/-- The Python test `tag in pdta`. -/
def pdtaHasKey (tag : String) : Bool := pdtaKeys.contains tag

/-- The dispatch body of the pdta sub chunk loop: `tag in pdta` followed by
`getattr(SF2Parser, "parse_" + tag)`, overwriting the slot; any other tag
is the Unknown chunk error. -/
def parse_pdta_sub (c : Cursor) (p : Pdta) (tag : String) (size : Nat) :
    Except Err (Pdta × Cursor) :=
  if tag = "phdr" then do
    let (v, c) ← parse_phdr c size
    .ok ({ p with phdr := some v }, c)
  else if tag = "pbag" then do
    let (v, c) ← parse_pbag c size
    .ok ({ p with pbag := some v }, c)
  else if tag = "pmod" then do
    let (v, c) ← parse_pmod c size
    .ok ({ p with pmod := some v }, c)
  else if tag = "pgen" then do
    let (v, c) ← parse_pgen c size
    .ok ({ p with pgen := some v }, c)
  else if tag = "inst" then do
    let (v, c) ← parse_inst c size
    .ok ({ p with inst := some v }, c)
  else if tag = "ibag" then do
    let (v, c) ← parse_ibag c size
    .ok ({ p with ibag := some v }, c)
  else if tag = "imod" then do
    let (v, c) ← parse_imod c size
    .ok ({ p with imod := some v }, c)
  else if tag = "igen" then do
    let (v, c) ← parse_igen c size
    .ok ({ p with igen := some v }, c)
  else if tag = "shdr" then do
    let (v, c) ← parse_shdr c size
    .ok ({ p with shdr := some v }, c)
  else .error (.unknownChunk tag)

/-- One execution of the body of the pdta sub chunk while loop: read one
sub chunk header, dispatch, and subtract the sub chunk size plus eight
header bytes from the remaining declared size. -/
def parse_pdta_step (c : Cursor) (p : Pdta) (ckSize : Int) :
    Except Err (Pdta × Cursor × Int) := do
  let ((subCkID, subCkSize), c) ← chunk_header c
  let (p, c) ← parse_pdta_sub c p subCkID subCkSize
  .ok (p, c, ckSize - ((subCkSize : Int) + 8))

/-- The sub chunk loop of `parse_pdta`: while the remaining declared size
is positive, run one body step.  Returns the remaining size so the caller
can test the Exceeded length condition. -/
def parse_pdta_loop : Cursor → Pdta → Int → Nat → Except Err (Pdta × Cursor × Int)
  | c, p, ckSize, 0 => if ckSize > 0 then .error .fuel else .ok (p, c, ckSize)
  | c, p, ckSize, f + 1 =>
    if ckSize > 0 then
      (parse_pdta_step c p ckSize).bind (fun r => parse_pdta_loop r.2.1 r.1 r.2.2 f)
    else .ok (p, c, ckSize)

/-- Python `xs[-2]` on a decoded array: the record two before the end, an
IndexError when fewer than two records exist. -/
def idxNeg2 (l : List α) : Except Err α :=
  if h : 2 ≤ l.length then .ok (l.get ⟨l.length - 2, by omega⟩) else .error .indexError

/-- Python `pdta[tag][-2]` where the slot may still be None: subscripting
None is a TypeError. -/
def subNeg2 : Option (List α) → Except Err α
  | none => .error .typeError
  | some l => idxNeg2 l

/-- Python `len(pdta[tag])` where the slot may still be None: len of None
is a TypeError. -/
def lenOpt : Option (List α) → Except Err Nat
  | none => .error .typeError
  | some l => .ok l.length

/-- The cross reference validation block at the end of `parse_pdta`,
in source order.  Each guard tests key membership on the pre populated
dict (always true); the phdr block measures len of phdr itself, exactly as
source line 386 does, rather than len of pbag. -/
def crossCheck (cfg : Config) (p : Pdta) : Except Err Unit := do
  if pdtaHasKey "phdr" && pdtaHasKey "pbag" then
    let r ← subNeg2 p.phdr
    let n ← lenOpt p.phdr
    if r.wPresetBagNdx ≥ n then
      if !cfg.ignoreIndexOutOfRange then .error (.outOfRange "wPresetBagNdx" r.wPresetBagNdx n)
      else pure ()
    else pure ()
  else .error (.missingChunks "phdr pbag")
  if pdtaHasKey "pbag" && pdtaHasKey "pmod" && pdtaHasKey "pgen" then do
    let r ← subNeg2 p.pbag
    let ngen ← lenOpt p.pgen
    if r.wGenNdx ≥ ngen then
      if !cfg.ignoreIndexOutOfRange then .error (.outOfRange "wGenNdx" r.wGenNdx ngen)
      else pure ()
    else pure ()
    let r2 ← subNeg2 p.pbag
    let nmod ← lenOpt p.pmod
    if r2.wModNdx ≥ nmod then
      if !cfg.ignoreIndexOutOfRange then .error (.outOfRange "wModNdx" r2.wModNdx nmod)
      else pure ()
    else pure ()
  else .error (.missingChunks "pmod pgen")
  if pdtaHasKey "inst" && pdtaHasKey "ibag" then do
    let r ← subNeg2 p.inst
    let n ← lenOpt p.ibag
    if r.wInstBagNdx ≥ n then
      if !cfg.ignoreIndexOutOfRange then .error (.outOfRange "wInstBagNdx" r.wInstBagNdx n)
      else pure ()
    else pure ()
  else .error (.missingChunks "inst ibag")
  if pdtaHasKey "ibag" && pdtaHasKey "imod" && pdtaHasKey "igen" then do
    let r ← subNeg2 p.ibag
    let ngen ← lenOpt p.igen
    if r.wInstGenNdx ≥ ngen then
      if !cfg.ignoreIndexOutOfRange then .error (.outOfRange "wInstGenNdx" r.wInstGenNdx ngen)
      else pure ()
    else pure ()
    let r2 ← subNeg2 p.ibag
    let nmod ← lenOpt p.imod
    if r2.wInstModNdx ≥ nmod then
      if !cfg.ignoreIndexOutOfRange then .error (.outOfRange "wInstModNdx" r2.wInstModNdx nmod)
      else pure ()
    else pure ()
  else .error (.missingChunks "imod igen")

/-- The tail of `parse_pdta` after the sub chunk loop: the Exceeded length
test on the remaining declared size, then the cross reference block. -/
def parse_pdta_after_loop (cfg : Config) (r : Pdta × Cursor × Int) : Except Err (Pdta × Cursor) :=
  if r.2.2 < 0 then .error (.exceededLength "pdta")
  else do
    crossCheck cfg r.1
    .ok (r.1, r.2.1)

/-- `parse_pdta()`: outer header must be LIST with form pdta, then the sub
chunk loop, the Exceeded length test, and the cross reference block. -/
def parse_pdta (cfg : Config) (c : Cursor) : Except Err (Pdta × Cursor) := do
  let ((ckID, ckSize0), c) ← chunk_header c
  if ckID = "LIST" then do
    let (formID, c) ← FOURCC c
    if formID = "pdta" then do
      let ckSize : Int := (ckSize0 : Int) - 4
      let r ← parse_pdta_loop c pdta0 ckSize (ckSize.toNat + 1)
      parse_pdta_after_loop cfg r
    else .error (.badForm "pdta" formID)
  else .error (.wrongChunk "pdta" ckID)

/-- np.frombuffer with dtype little endian int16: consecutive byte pairs
read as signed 16 bit values; a trailing odd byte would be a ValueError,
handled by the caller. -/
def int16sLE : List Nat → List Int
  | b0 :: b1 :: rest => toSigned16 (le2 b0 b1) :: int16sLE rest
  | _ => []

/-- The frombuffer length constraint for a two byte item size. -/
def frombufferInt16 (bs : List Nat) : Except Err (List Int) :=
  if bs.length % 2 ≠ 0 then .error .valueError else .ok (int16sLE bs)

/-- `parse_smpl(ckSize)`: read the 16 bit samples from the buffered slice
and multiply the int16 array by 2 to the 8, which wraps in int16. -/
def parse_smpl (c : Cursor) (ckSize : Nat) : Except Err (List Int × Cursor) := do
  let c := check c ckSize
  let sd ← frombufferInt16 (c.buffer.take ckSize)
  let sd := sd.map (fun s => wrap16s (s * 256))
  .ok (sd, { c with buffer := c.buffer.drop ckSize })

/-- `parse_sm24(ckSize)`: read the buffered slice as signed 8 bit values.
This method is defined by the source but `parse_sdta` never calls it. -/
def parse_sm24 (c : Cursor) (ckSize : Nat) : Except Err (List Int × Cursor) :=
  let c := check c ckSize
  .ok ((c.buffer.take ckSize).map toSigned8, { c with buffer := c.buffer.drop ckSize })

/-- The result dict of `parse_isng`: the sound engine name, with the
default EMU8000 substituted on fault, plus the raw decoded string. -/
structure Isng where
  szSoundEngine : String
  szSoundEngine_raw : String
deriving DecidableEq

/-- `parse_isng(ckSize)`. -/
def parse_isng (c : Cursor) (ckSize : Nat) : Except Err (Isng × Cursor) := do
  let ((zstr, fault), c) ← ZSTR c ckSize
  .ok (⟨if fault then "EMU8000" else zstr, zstr⟩, c)

/-- The sdta aggregate.  The dict starts with keys smpl and sm24 only; the
sm24 dispatch arm of the source stores its result under a new key isng,
modelled by the third field. -/
structure Sdta where
  smpl : Option (List Int)
  sm24 : Option (List Int)
  isng : Option Isng
deriving DecidableEq

/-- Sign extend an int16 value to its unsigned 16 bit pattern. -/
def toU16 (z : Int) : Nat := (z % 65536).toNat

/-- numpy bitwise_or of two int16 values through their bit patterns. -/
def or16 (a b : Int) : Int := toSigned16 (Nat.lor (toU16 a) (toU16 b))

/-- np.bitwise_or over two sample arrays; a length mismatch is a numpy
broadcast ValueError. -/
def bitwiseOrArr (hi lo : List Int) : Except Err (List Int) :=
  if hi.length = lo.length then .ok (List.zipWith or16 hi lo) else .error .valueError

/-- The sub chunk loop of `parse_sdta`.  A smpl tag runs `parse_smpl`; an
sm24 tag runs `parse_isng` and stores the result under the isng key, as
source line 478 does; any other tag is silently skipped without consuming
its payload. -/
def parse_sdta_loop : Cursor → Sdta → Int → Nat → Except Err (Sdta × Cursor)
  | c, s, ckSize, 0 => if ckSize > 0 then .error .fuel else .ok (s, c)
  | c, s, ckSize, f + 1 =>
    if ckSize > 0 then do
      let ((subCkID, subCkSize), c) ← chunk_header c
      if subCkID = "smpl" then do
        let (v, c) ← parse_smpl c subCkSize
        parse_sdta_loop c { s with smpl := some v } (ckSize - ((subCkSize : Int) + 8)) f
      else if subCkID = "sm24" then do
        let (v, c) ← parse_isng c subCkSize
        parse_sdta_loop c { s with isng := some v } (ckSize - ((subCkSize : Int) + 8)) f
      else
        parse_sdta_loop c s (ckSize - ((subCkSize : Int) + 8)) f
    else .ok (s, c)

/-- The tail of `parse_sdta`: merge smpl with sm24 when both are present
(the pop of sm24 becomes setting the field back to None). -/
def parse_sdta_merge (s : Sdta) (c : Cursor) : Except Err (Sdta × Cursor) :=
  match s.smpl, s.sm24 with
  | some hi, some lo => do
    let merged ← bitwiseOrArr hi lo
    .ok ({ smpl := some merged, sm24 := none, isng := s.isng }, c)
  | _, _ => .ok (s, c)

/-- `parse_sdta()`: outer header must be LIST with form sdta, then the sub
chunk loop, then the merge step. -/
def parse_sdta (c : Cursor) : Except Err (Sdta × Cursor) := do
  let ((ckID, ckSize0), c) ← chunk_header c
  if ckID = "LIST" then do
    let (formID, c) ← FOURCC c
    if formID = "sdta" then do
      let ckSize : Int := (ckSize0 : Int) - 4
      let (s, c) ← parse_sdta_loop c ⟨none, none, none⟩ ckSize (ckSize.toNat + 1)
      parse_sdta_merge s c
    else .error (.badForm "sdta" formID)
  else .error (.wrongChunk "sdta" ckID)

/-- The result dict of `parse_ifil` and `parse_iver`. -/
structure VersionTag where
  wMajor : Nat
  wMinor : Nat
deriving DecidableEq

/-- The common shape of the free text INFO records: the value, None on
fault, plus the raw decoded string.  The source gives each chunk its own
field names (szName, szROM, szDate, ...) over this same shape. -/
structure StrField where
  val : Option String
  raw : String
deriving DecidableEq

/-- `parse_ifil(ckSize)`: a size other than four is fatal unless
ignore_errors is set; then two WORD fields. -/
def parse_ifil (cfg : Config) (c : Cursor) (ckSize : Nat) : Except Err (VersionTag × Cursor) := do
  if ckSize ≠ 4 ∧ cfg.ignore_errors = false then .error (.illegalSize "ifil" ckSize)
  else do
    let (wMajor, c) ← WORD c
    let (wMinor, c) ← WORD c
    .ok (⟨wMajor, wMinor⟩, c)

/-- `parse_iver(ckSize)`: as `parse_ifil` with the iver tag. -/
def parse_iver (cfg : Config) (c : Cursor) (ckSize : Nat) : Except Err (VersionTag × Cursor) := do
  if ckSize ≠ 4 ∧ cfg.ignore_errors = false then .error (.illegalSize "iver" ckSize)
  else do
    let (wMajor, c) ← WORD c
    let (wMinor, c) ← WORD c
    .ok (⟨wMajor, wMinor⟩, c)

/-- The shared body of the free text INFO chunk parsers (INAM, irom, ICRD,
IENG, IPRD, ICOP, ICMT, ISFT): a ZSTR of the declared size, the value None
on fault. -/
def parse_strField (c : Cursor) (ckSize : Nat) : Except Err (StrField × Cursor) := do
  let ((zstr, fault), c) ← ZSTR c ckSize
  .ok (⟨if fault then none else some zstr, zstr⟩, c)

/-- The INFO aggregate: ifil, isng and INAM start as None; the remaining
keys start as empty lists, so their dispatch always appends. -/
structure Info where
  ifil : Option VersionTag
  isng : Option Isng
  INAM : Option StrField
  irom : List StrField
  iver : List VersionTag
  ICRD : List StrField
  IENG : List StrField
  IPRD : List StrField
  ICOP : List StrField
  ICMT : List StrField
  ISFT : List StrField
deriving DecidableEq

/-- The initial INFO dict. -/
def info0 : Info := ⟨none, none, none, [], [], [], [], [], [], [], []⟩

/-- The dispatch body of the INFO sub chunk loop.  A slot equal to None is
assigned; otherwise the source evaluates the append attribute of the
stored value before parsing the chunk, so a second occurrence of one of
the three singular keys raises AttributeError, with no bytes consumed,
because a dict has no append; the list valued keys are never None and are
appended to in file order. -/
def parse_INFO_sub (cfg : Config) (c : Cursor) (info : Info) (subCkID : String)
    (subCkSize : Nat) : Except Err (Info × Cursor) :=
  if subCkID = "ifil" then
    match info.ifil with
    | none => do
      let (v, c) ← parse_ifil cfg c subCkSize
      .ok ({ info with ifil := some v }, c)
    | some _ => .error .attributeError
  else if subCkID = "isng" then
    match info.isng with
    | none => do
      let (v, c) ← parse_isng c subCkSize
      .ok ({ info with isng := some v }, c)
    | some _ => .error .attributeError
  else if subCkID = "INAM" then
    match info.INAM with
    | none => do
      let (v, c) ← parse_strField c subCkSize
      .ok ({ info with INAM := some v }, c)
    | some _ => .error .attributeError
  else if subCkID = "irom" then do
    let (v, c) ← parse_strField c subCkSize
    .ok ({ info with irom := info.irom ++ [v] }, c)
  else if subCkID = "iver" then do
    let (v, c) ← parse_iver cfg c subCkSize
    .ok ({ info with iver := info.iver ++ [v] }, c)
  else if subCkID = "ICRD" then do
    let (v, c) ← parse_strField c subCkSize
    .ok ({ info with ICRD := info.ICRD ++ [v] }, c)
  else if subCkID = "IENG" then do
    let (v, c) ← parse_strField c subCkSize
    .ok ({ info with IENG := info.IENG ++ [v] }, c)
  else if subCkID = "IPRD" then do
    let (v, c) ← parse_strField c subCkSize
    .ok ({ info with IPRD := info.IPRD ++ [v] }, c)
  else if subCkID = "ICOP" then do
    let (v, c) ← parse_strField c subCkSize
    .ok ({ info with ICOP := info.ICOP ++ [v] }, c)
  else if subCkID = "ICMT" then do
    let (v, c) ← parse_strField c subCkSize
    .ok ({ info with ICMT := info.ICMT ++ [v] }, c)
  else if subCkID = "ISFT" then do
    let (v, c) ← parse_strField c subCkSize
    .ok ({ info with ISFT := info.ISFT ++ [v] }, c)
  else .error (.unknownChunk subCkID)

/-- The sub chunk loop of `parse_INFO`. -/
def parse_INFO_loop (cfg : Config) (c : Cursor) (info : Info) (ckSize : Int) (fuelN : Nat) :
    Except Err (Info × Cursor) :=
  if ckSize > 0 then
    match fuelN with
    | 0 => .error .fuel
    | f + 1 => do
      let ((subCkID, subCkSize), c) ← chunk_header c
      let (info, c) ← parse_INFO_sub cfg c info subCkID subCkSize
      parse_INFO_loop cfg c info (ckSize - ((subCkSize : Int) + 8)) f
  else .ok (info, c)

/-- `parse_INFO()`: outer header must be LIST with form INFO, then the sub
chunk loop, then the missing ifil test. -/
def parse_INFO (cfg : Config) (c : Cursor) : Except Err (Info × Cursor) := do
  let ((ckID, ckSize0), c) ← chunk_header c
  if ckID = "LIST" then do
    let (formID, c) ← FOURCC c
    if formID = "INFO" then do
      let ckSize : Int := (ckSize0 : Int) - 4
      let (info, c) ← parse_INFO_loop cfg c info0 ckSize (ckSize.toNat + 1)
      if info.ifil = none ∧ cfg.ignore_errors = false then .error (.missingChunks "ifil")
      else .ok (info, c)
    else .error (.badForm "INFO" formID)
  else .error (.wrongChunk "LIST" ckID)

/-- ASCII bytes of a string, for building test streams. -/
def asciiBytes (s : String) : List Nat := s.data.map (fun ch => ch.toNat)

/-- Little endian encoding of a 16 bit value. -/
def u16le (n : Nat) : List Nat := [n % 256, n / 256 % 256]

/-- Little endian encoding of a 32 bit value. -/
def u32le (n : Nat) : List Nat :=
  [n % 256, n / 256 % 256, n / 65536 % 256, n / 16777216 % 256]

/-- A RIFF sub chunk: tag, declared size, payload. -/
def chunkOf (tag : String) (payload : List Nat) : List Nat :=
  asciiBytes tag ++ u32le payload.length ++ payload

/-- A LIST chunk with the given form id wrapped around inner bytes. -/
def listChunk (form : String) (inner : List Nat) : List Nat :=
  asciiBytes "LIST" ++ u32le (4 + inner.length) ++ asciiBytes form ++ inner

/-- Bytes of one phdr record with a zero name, zero preset and bank, the
given wPresetBagNdx and zero reserved fields. -/
def phdrRecBytes (ndx : Nat) : List Nat :=
  List.replicate 20 0 ++ u16le 0 ++ u16le 0 ++ u16le ndx ++ u32le 0 ++ u32le 0 ++ u32le 0

/-- Bytes of one inst record with a zero name and the given wInstBagNdx. -/
def instRecBytes (ndx : Nat) : List Nat := List.replicate 20 0 ++ u16le ndx

/-- An sdta LIST holding a single smpl chunk with the given payload. -/
def sdtaSmplStream (bs : List Nat) : List Nat := listChunk "sdta" (chunkOf "smpl" bs)

/-- An sdta LIST holding one smpl chunk whose single 16 bit sample is
0x00FF and one sm24 chunk whose single extension byte is 0x0A. -/
def c1Bytes : List Nat := listChunk "sdta" (chunkOf "smpl" [255, 0] ++ chunkOf "sm24" [10])

/-- The nine sub chunks of a pdta LIST whose phdr has two records with
wPresetBagNdx 3 and whose pbag has five records, so the second to last
preset points inside pbag (3 < 5) but at or past the end of phdr itself
(3 >= 2). -/
def c2Inner : List Nat :=
  chunkOf "phdr" (phdrRecBytes 3 ++ phdrRecBytes 3) ++
  chunkOf "pbag" (List.replicate 20 0) ++
  chunkOf "pmod" (List.replicate 10 0) ++
  chunkOf "pgen" (List.replicate 4 0) ++
  chunkOf "inst" (instRecBytes 0 ++ instRecBytes 0) ++
  chunkOf "ibag" (List.replicate 8 0) ++
  chunkOf "imod" (List.replicate 10 0) ++
  chunkOf "igen" (List.replicate 4 0) ++
  chunkOf "shdr" (List.replicate 46 0)

/-- The pdta LIST wrapping c2Inner. -/
def c2Bytes : List Nat := listChunk "pdta" c2Inner

/-- A pbag payload of two records whose wGenNdx values decrease: (5, 0)
then (3, 0). -/
def c3Bytes : List Nat := u16le 5 ++ u16le 0 ++ u16le 3 ++ u16le 0

/-- The eight sub chunks of a pdta LIST with no ibag chunk. -/
def c4Inner : List Nat :=
  chunkOf "phdr" (phdrRecBytes 0 ++ phdrRecBytes 0) ++
  chunkOf "pbag" (List.replicate 8 0) ++
  chunkOf "pmod" (List.replicate 10 0) ++
  chunkOf "pgen" (List.replicate 4 0) ++
  chunkOf "inst" (instRecBytes 0 ++ instRecBytes 0) ++
  chunkOf "imod" (List.replicate 10 0) ++
  chunkOf "igen" (List.replicate 4 0) ++
  chunkOf "shdr" (List.replicate 46 0)

/-- The pdta LIST wrapping c4Inner. -/
def c4Bytes : List Nat := listChunk "pdta" c4Inner

/-- The nine sub chunks of a pdta LIST whose phdr records carry
wPresetBagNdx 99, out of range for every array in the file. -/
def c5Inner : List Nat :=
  chunkOf "phdr" (phdrRecBytes 99 ++ phdrRecBytes 99) ++
  chunkOf "pbag" (List.replicate 8 0) ++
  chunkOf "pmod" (List.replicate 10 0) ++
  chunkOf "pgen" (List.replicate 4 0) ++
  chunkOf "inst" (instRecBytes 0 ++ instRecBytes 0) ++
  chunkOf "ibag" (List.replicate 8 0) ++
  chunkOf "imod" (List.replicate 10 0) ++
  chunkOf "igen" (List.replicate 4 0) ++
  chunkOf "shdr" (List.replicate 46 0)

/-- The pdta LIST wrapping c5Inner. -/
def c5Bytes : List Nat := listChunk "pdta" c5Inner

/-- An INFO LIST carrying an ifil chunk and two isng chunks. -/
def c10Bytes : List Nat := listChunk "INFO"
  (chunkOf "ifil" [2, 0, 0, 0] ++
   chunkOf "isng" [69, 0, 0, 0] ++
   chunkOf "isng" [69, 0, 0, 0])

/-- An Info state in which both singular string slots are already filled. -/
def infoDup : Info :=
  { info0 with isng := some ⟨"E", "E"⟩, INAM := some ⟨some "E", "E"⟩ }

/-- Whether an Except value is a success. -/
def isOkE : Except Err α → Bool
  | .ok _ => true
  | .error _ => false

/-- The value DWORD reads back from the four bytes of `u32le n`. -/
def u32val (n : Nat) : Nat :=
  le4 (n % 256) (n / 256 % 256) (n / 65536 % 256) (n / 16777216 % 256)

/-- The two decoded phdr records of the test streams: zero name, zero
preset and bank, the given wPresetBagNdx twice. -/
def phdrPair (ndx : Nat) : List PresetHeader :=
  [⟨"", 0, 0, ndx, 0, 0, 0⟩, ⟨"", 0, 0, ndx, 0, 0, 0⟩]

/-- Two all zero pbag records. -/
def zeroPbag2 : List PresetBag := [⟨0, 0⟩, ⟨0, 0⟩]

/-- Five all zero pbag records. -/
def zeroPbag5 : List PresetBag := [⟨0, 0⟩, ⟨0, 0⟩, ⟨0, 0⟩, ⟨0, 0⟩, ⟨0, 0⟩]

/-- One all zero modulator record. -/
def zeroMod1 : List ModList := [⟨0, 0, 0, 0, 0⟩]

/-- One all zero generator record. -/
def zeroGen1 : List GenList := [⟨0, 0⟩]

/-- Two all zero inst records. -/
def zeroInst2 : List InstRec := [⟨"", 0⟩, ⟨"", 0⟩]

/-- Two all zero ibag records. -/
def zeroIbag2 : List InstBag := [⟨0, 0⟩, ⟨0, 0⟩]

/-- One all zero shdr record. -/
def zeroShdr1 : List SampleHdr := [⟨"", 0, 0, 0, 0, 0, 0, 0, 0, 0⟩]

/-- Successive pdta states while decoding c2Inner, one per sub chunk. -/
def c2P1 : Pdta := { pdta0 with phdr := some (phdrPair 3) }

def c2P2 : Pdta := { c2P1 with pbag := some zeroPbag5 }

def c2P3 : Pdta := { c2P2 with pmod := some zeroMod1 }

def c2P4 : Pdta := { c2P3 with pgen := some zeroGen1 }

def c2P5 : Pdta := { c2P4 with inst := some zeroInst2 }

def c2P6 : Pdta := { c2P5 with ibag := some zeroIbag2 }

def c2P7 : Pdta := { c2P6 with imod := some zeroMod1 }

def c2P8 : Pdta := { c2P7 with igen := some zeroGen1 }

def c2P9 : Pdta := { c2P8 with shdr := some zeroShdr1 }

/-- Successive pdta states while decoding c4Inner, one per sub chunk. -/
def c4P1 : Pdta := { pdta0 with phdr := some (phdrPair 0) }

def c4P2 : Pdta := { c4P1 with pbag := some zeroPbag2 }

def c4P3 : Pdta := { c4P2 with pmod := some zeroMod1 }

def c4P4 : Pdta := { c4P3 with pgen := some zeroGen1 }

def c4P5 : Pdta := { c4P4 with inst := some zeroInst2 }

def c4P6 : Pdta := { c4P5 with imod := some zeroMod1 }

def c4P7 : Pdta := { c4P6 with igen := some zeroGen1 }

def c4P8 : Pdta := { c4P7 with shdr := some zeroShdr1 }

/-- Successive pdta states while decoding c5Inner, one per sub chunk. -/
def c5P1 : Pdta := { pdta0 with phdr := some (phdrPair 99) }

def c5P2 : Pdta := { c5P1 with pbag := some zeroPbag2 }

def c5P3 : Pdta := { c5P2 with pmod := some zeroMod1 }

def c5P4 : Pdta := { c5P3 with pgen := some zeroGen1 }

def c5P5 : Pdta := { c5P4 with inst := some zeroInst2 }

def c5P6 : Pdta := { c5P5 with ibag := some zeroIbag2 }

def c5P7 : Pdta := { c5P6 with imod := some zeroMod1 }

def c5P8 : Pdta := { c5P7 with igen := some zeroGen1 }

def c5P9 : Pdta := { c5P8 with shdr := some zeroShdr1 }

set_option maxRecDepth 100000

set_option maxHeartbeats 1000000

/-- Binding a success just applies the continuation. -/
theorem exceptBind_ok (a : α) (f : α → Except Err β) : (Except.ok a).bind f = f a := rfl

/-- The DWORD value of a u32le encoding recovers the encoded number when it
fits in 32 bits. -/
theorem u32val_eq (n : Nat) (h : n < 4294967296) : u32val n = n := by
  unfold u32val le4
  omega

/-- Decoding a pdta LIST reduces to the sub chunk loop over the inner bytes
followed by the after loop stage, with the declared size recovered from
its little endian encoding. -/
theorem parse_pdta_listChunk (cfg : Config) (inner : List Nat)
    (h : 4 + inner.length < 4294967296) :
    parse_pdta cfg (mkCursor (listChunk "pdta" inner)) =
      (parse_pdta_loop ⟨inner, []⟩ pdta0 (inner.length : Int) (inner.length + 1)).bind
        (parse_pdta_after_loop cfg) :=
  calc parse_pdta cfg (mkCursor (listChunk "pdta" inner))
      = (parse_pdta_loop ⟨inner, []⟩ pdta0 ((u32val (4 + inner.length) : Int) - 4)
          (((u32val (4 + inner.length) : Int) - 4).toNat + 1)).bind
          (parse_pdta_after_loop cfg) := rfl
    _ = (parse_pdta_loop ⟨inner, []⟩ pdta0 (((4 + inner.length : Nat) : Int) - 4)
          ((((4 + inner.length : Nat) : Int) - 4).toNat + 1)).bind
          (parse_pdta_after_loop cfg) := by rw [u32val_eq (4 + inner.length) h]
    _ = (parse_pdta_loop ⟨inner, []⟩ pdta0 (inner.length : Int) (inner.length + 1)).bind
          (parse_pdta_after_loop cfg) := by
            rw [show (((4 + inner.length : Nat) : Int) - 4) = ((inner.length : Nat) : Int) from
              by omega]
            rfl

/-- Decoding an sdta LIST reduces to the sub chunk loop over the inner
bytes followed by the merge stage. -/
theorem parse_sdta_listChunk (inner : List Nat) (h : 4 + inner.length < 4294967296) :
    parse_sdta (mkCursor (listChunk "sdta" inner)) =
      (parse_sdta_loop ⟨inner, []⟩ ⟨none, none, none⟩ (inner.length : Int)
        (inner.length + 1)).bind (fun sc => parse_sdta_merge sc.1 sc.2) :=
  calc parse_sdta (mkCursor (listChunk "sdta" inner))
      = (parse_sdta_loop ⟨inner, []⟩ ⟨none, none, none⟩ ((u32val (4 + inner.length) : Int) - 4)
          (((u32val (4 + inner.length) : Int) - 4).toNat + 1)).bind
          (fun sc => parse_sdta_merge sc.1 sc.2) := rfl
    _ = (parse_sdta_loop ⟨inner, []⟩ ⟨none, none, none⟩ (((4 + inner.length : Nat) : Int) - 4)
          ((((4 + inner.length : Nat) : Int) - 4).toNat + 1)).bind
          (fun sc => parse_sdta_merge sc.1 sc.2) := by rw [u32val_eq (4 + inner.length) h]
    _ = (parse_sdta_loop ⟨inner, []⟩ ⟨none, none, none⟩ (inner.length : Int)
          (inner.length + 1)).bind (fun sc => parse_sdta_merge sc.1 sc.2) := by
            rw [show (((4 + inner.length : Nat) : Int) - 4) = ((inner.length : Nat) : Int) from
              by omega]
            rfl

/-- Unfolding the pdta sub chunk loop once while size remains. -/
theorem parse_pdta_loop_pos (c : Cursor) (p : Pdta) (ck : Int) (f : Nat) (h : 0 < ck) :
    parse_pdta_loop c p ck (f + 1) =
      (parse_pdta_step c p ck).bind (fun r => parse_pdta_loop r.2.1 r.1 r.2.2 f) := by
  rw [parse_pdta_loop, if_pos h]

/-- The pdta sub chunk loop stops when no declared size remains. -/
theorem parse_pdta_loop_exit (c : Cursor) (p : Pdta) (ck : Int) (f : Nat) (h : ¬ 0 < ck) :
    parse_pdta_loop c p ck f = .ok (p, c, ck) := by
  cases f with
  | zero => rw [parse_pdta_loop, if_neg h]
  | succ f => rw [parse_pdta_loop, if_neg h]

/-- One evaluated body step advances the pdta sub chunk loop. -/
theorem parse_pdta_loop_shift (c : Cursor) (p : Pdta) (ck : Int) (f : Nat) (h : 0 < ck)
    (p2 : Pdta) (c2 : Cursor) (ck2 : Int)
    (hstep : parse_pdta_step c p ck = .ok (p2, c2, ck2)) :
    parse_pdta_loop c p ck (f + 1) = parse_pdta_loop c2 p2 ck2 f := by
  rw [parse_pdta_loop_pos c p ck f h, hstep, exceptBind_ok]

/-- The sub chunk loop over c2Inner decodes all nine chunks, ending with
the state c2P9, an exhausted cursor and zero remaining size. -/
theorem c2_loop_eval :
    parse_pdta_loop ⟨c2Inner, []⟩ pdta0 (c2Inner.length : Int) (c2Inner.length + 1) =
      .ok (c2P9, ⟨[], []⟩, 0) :=
  calc parse_pdta_loop ⟨c2Inner, []⟩ pdta0 (c2Inner.length : Int) (c2Inner.length + 1)
      = parse_pdta_loop ⟨c2Inner.drop 84, []⟩ c2P1 210 294 :=
        parse_pdta_loop_shift _ _ _ 294 (by decide) _ _ _ rfl
    _ = parse_pdta_loop ⟨c2Inner.drop 112, []⟩ c2P2 182 293 :=
        parse_pdta_loop_shift _ _ _ 293 (by decide) _ _ _ rfl
    _ = parse_pdta_loop ⟨c2Inner.drop 130, []⟩ c2P3 164 292 :=
        parse_pdta_loop_shift _ _ _ 292 (by decide) _ _ _ rfl
    _ = parse_pdta_loop ⟨c2Inner.drop 142, []⟩ c2P4 152 291 :=
        parse_pdta_loop_shift _ _ _ 291 (by decide) _ _ _ rfl
    _ = parse_pdta_loop ⟨c2Inner.drop 194, []⟩ c2P5 100 290 :=
        parse_pdta_loop_shift _ _ _ 290 (by decide) _ _ _ rfl
    _ = parse_pdta_loop ⟨c2Inner.drop 210, []⟩ c2P6 84 289 :=
        parse_pdta_loop_shift _ _ _ 289 (by decide) _ _ _ rfl
    _ = parse_pdta_loop ⟨c2Inner.drop 228, []⟩ c2P7 66 288 :=
        parse_pdta_loop_shift _ _ _ 288 (by decide) _ _ _ rfl
    _ = parse_pdta_loop ⟨c2Inner.drop 240, []⟩ c2P8 54 287 :=
        parse_pdta_loop_shift _ _ _ 287 (by decide) _ _ _ rfl
    _ = parse_pdta_loop ⟨c2Inner.drop 294, []⟩ c2P9 0 286 :=
        parse_pdta_loop_shift _ _ _ 286 (by decide) _ _ _ rfl
    _ = .ok (c2P9, ⟨[], []⟩, 0) := parse_pdta_loop_exit _ _ _ _ (by decide)

/-- The sub chunk loop over c4Inner decodes the eight present chunks,
ending with the state c4P8 in which ibag is still None. -/
theorem c4_loop_eval :
    parse_pdta_loop ⟨c4Inner, []⟩ pdta0 (c4Inner.length : Int) (c4Inner.length + 1) =
      .ok (c4P8, ⟨[], []⟩, 0) :=
  calc parse_pdta_loop ⟨c4Inner, []⟩ pdta0 (c4Inner.length : Int) (c4Inner.length + 1)
      = parse_pdta_loop ⟨c4Inner.drop 84, []⟩ c4P1 182 266 :=
        parse_pdta_loop_shift _ _ _ 266 (by decide) _ _ _ rfl
    _ = parse_pdta_loop ⟨c4Inner.drop 100, []⟩ c4P2 166 265 :=
        parse_pdta_loop_shift _ _ _ 265 (by decide) _ _ _ rfl
    _ = parse_pdta_loop ⟨c4Inner.drop 118, []⟩ c4P3 148 264 :=
        parse_pdta_loop_shift _ _ _ 264 (by decide) _ _ _ rfl
    _ = parse_pdta_loop ⟨c4Inner.drop 130, []⟩ c4P4 136 263 :=
        parse_pdta_loop_shift _ _ _ 263 (by decide) _ _ _ rfl
    _ = parse_pdta_loop ⟨c4Inner.drop 182, []⟩ c4P5 84 262 :=
        parse_pdta_loop_shift _ _ _ 262 (by decide) _ _ _ rfl
    _ = parse_pdta_loop ⟨c4Inner.drop 200, []⟩ c4P6 66 261 :=
        parse_pdta_loop_shift _ _ _ 261 (by decide) _ _ _ rfl
    _ = parse_pdta_loop ⟨c4Inner.drop 212, []⟩ c4P7 54 260 :=
        parse_pdta_loop_shift _ _ _ 260 (by decide) _ _ _ rfl
    _ = parse_pdta_loop ⟨c4Inner.drop 266, []⟩ c4P8 0 259 :=
        parse_pdta_loop_shift _ _ _ 259 (by decide) _ _ _ rfl
    _ = .ok (c4P8, ⟨[], []⟩, 0) := parse_pdta_loop_exit _ _ _ _ (by decide)

/-- The sub chunk loop over c5Inner decodes all nine chunks, ending with
the state c5P9. -/
theorem c5_loop_eval :
    parse_pdta_loop ⟨c5Inner, []⟩ pdta0 (c5Inner.length : Int) (c5Inner.length + 1) =
      .ok (c5P9, ⟨[], []⟩, 0) :=
  calc parse_pdta_loop ⟨c5Inner, []⟩ pdta0 (c5Inner.length : Int) (c5Inner.length + 1)
      = parse_pdta_loop ⟨c5Inner.drop 84, []⟩ c5P1 198 282 :=
        parse_pdta_loop_shift _ _ _ 282 (by decide) _ _ _ rfl
    _ = parse_pdta_loop ⟨c5Inner.drop 100, []⟩ c5P2 182 281 :=
        parse_pdta_loop_shift _ _ _ 281 (by decide) _ _ _ rfl
    _ = parse_pdta_loop ⟨c5Inner.drop 118, []⟩ c5P3 164 280 :=
        parse_pdta_loop_shift _ _ _ 280 (by decide) _ _ _ rfl
    _ = parse_pdta_loop ⟨c5Inner.drop 130, []⟩ c5P4 152 279 :=
        parse_pdta_loop_shift _ _ _ 279 (by decide) _ _ _ rfl
    _ = parse_pdta_loop ⟨c5Inner.drop 182, []⟩ c5P5 100 278 :=
        parse_pdta_loop_shift _ _ _ 278 (by decide) _ _ _ rfl
    _ = parse_pdta_loop ⟨c5Inner.drop 198, []⟩ c5P6 84 277 :=
        parse_pdta_loop_shift _ _ _ 277 (by decide) _ _ _ rfl
    _ = parse_pdta_loop ⟨c5Inner.drop 216, []⟩ c5P7 66 276 :=
        parse_pdta_loop_shift _ _ _ 276 (by decide) _ _ _ rfl
    _ = parse_pdta_loop ⟨c5Inner.drop 228, []⟩ c5P8 54 275 :=
        parse_pdta_loop_shift _ _ _ 275 (by decide) _ _ _ rfl
    _ = parse_pdta_loop ⟨c5Inner.drop 282, []⟩ c5P9 0 274 :=
        parse_pdta_loop_shift _ _ _ 274 (by decide) _ _ _ rfl
    _ = .ok (c5P9, ⟨[], []⟩, 0) := parse_pdta_loop_exit _ _ _ _ (by decide)

/-- C1: the claim says an sdta section holding both a smpl array and an
equal length sm24 array merges to sample24 = (sample16 <<< 8) ||| sample8,
so 0x00FF with extension 0x0A yields 0x0000FF0A.  The code never performs
that merge: the sm24 dispatch arm calls parse_isng and stores its result
under the key isng, leaving the sm24 slot None; on this input the string
scan of parse_isng raises IndexError.  Moreover parse_smpl multiplies the
int16 array in place, so 0x00FF becomes -256, and even the intended
bitwise or in int16 gives -246, not 0x0000FF0A = 65290. -/
theorem C1_sm24_merge_broken :
    parse_sdta (mkCursor c1Bytes) = .error .indexError ∧
    parse_smpl (mkCursor [255, 0]) 2 = .ok ([-256], ⟨[], []⟩) ∧
    parse_sm24 (mkCursor [10]) 1 = .ok ([10], ⟨[], []⟩) ∧
    or16 (-256) 10 = -246 ∧ (-246 : Int) ≠ 65290 :=
  ⟨rfl, rfl, rfl, rfl, by decide⟩

/-- C2: the claim says the cross reference check compares the second to
last phdr record's wPresetBagNdx against the length of the pbag array.
On c2Bytes that index is 3 and pbag has five records, so the claim allows
the file; but the code compares against the length of phdr itself (two
records) and strict mode fails with the out of range error citing bound 2. -/
theorem C2_phdr_bound_checks_wrong_array :
    parse_pdta ⟨false, false⟩ (mkCursor c2Bytes) =
      .error (.outOfRange "wPresetBagNdx" 3 2) ∧
    (parse_pdta defaultConfig (mkCursor c2Bytes)).toOption.map
        (fun pc => (pc.1.pbag.map List.length,
                    pc.1.phdr.map (fun l => l.map PresetHeader.wPresetBagNdx))) =
      some (some 5, some [3, 3]) := by
  have e1 : parse_pdta ⟨false, false⟩ (mkCursor c2Bytes) =
      (parse_pdta_loop ⟨c2Inner, []⟩ pdta0 (c2Inner.length : Int) (c2Inner.length + 1)).bind
        (parse_pdta_after_loop ⟨false, false⟩) :=
    parse_pdta_listChunk ⟨false, false⟩ c2Inner (by decide)
  have e2 : parse_pdta defaultConfig (mkCursor c2Bytes) =
      (parse_pdta_loop ⟨c2Inner, []⟩ pdta0 (c2Inner.length : Int) (c2Inner.length + 1)).bind
        (parse_pdta_after_loop defaultConfig) :=
    parse_pdta_listChunk defaultConfig c2Inner (by decide)
  refine ⟨?_, ?_⟩
  · rw [e1, c2_loop_eval]
    rfl
  · rw [e2, c2_loop_eval]
    rfl

/-- C3: the claim says any pbag with decreasing wGenNdx across consecutive
records raises OrderingViolation.  The code accepts this pbag whose
wGenNdx values are 5 then 3, because the generator tracker is overwritten
with the modulator index at the end of each iteration and the modulator
tracker is never written at all. -/
theorem C3_pbag_ordering_not_enforced :
    parse_pbag (mkCursor c3Bytes) 8 = .ok ([⟨5, 0⟩, ⟨3, 0⟩], ⟨[], []⟩) := rfl

/-- C4: the claim says a pdta LIST missing its ibag chunk fails with
MissingChunk.  The code instead raises TypeError, under either policy,
because the membership guard tests keys of a dict pre populated with all
nine keys and the inst block then takes len of None. -/
theorem C4_missing_ibag_type_error :
    parse_pdta defaultConfig (mkCursor c4Bytes) = .error .typeError ∧
    parse_pdta ⟨false, false⟩ (mkCursor c4Bytes) = .error .typeError := by
  have e1 : parse_pdta defaultConfig (mkCursor c4Bytes) =
      (parse_pdta_loop ⟨c4Inner, []⟩ pdta0 (c4Inner.length : Int) (c4Inner.length + 1)).bind
        (parse_pdta_after_loop defaultConfig) :=
    parse_pdta_listChunk defaultConfig c4Inner (by decide)
  have e2 : parse_pdta ⟨false, false⟩ (mkCursor c4Bytes) =
      (parse_pdta_loop ⟨c4Inner, []⟩ pdta0 (c4Inner.length : Int) (c4Inner.length + 1)).bind
        (parse_pdta_after_loop ⟨false, false⟩) :=
    parse_pdta_listChunk ⟨false, false⟩ c4Inner (by decide)
  refine ⟨?_, ?_⟩
  · rw [e1, c4_loop_eval]
    rfl
  · rw [e2, c4_loop_eval]
    rfl

/-- C5 counterexample: the claim says that with no configuration supplied
an out of range cross reference is fatal.  On c5Bytes, whose phdr records
point at index 99, the decode under the default configuration succeeds,
while the same input fails only when ignoreIndexOutOfRange is explicitly
set to false. -/
theorem C5_counterexample :
    isOkE (parse_pdta defaultConfig (mkCursor c5Bytes)) = true ∧
    parse_pdta ⟨false, false⟩ (mkCursor c5Bytes) =
      .error (.outOfRange "wPresetBagNdx" 99 2) := by
  have e1 : parse_pdta defaultConfig (mkCursor c5Bytes) =
      (parse_pdta_loop ⟨c5Inner, []⟩ pdta0 (c5Inner.length : Int) (c5Inner.length + 1)).bind
        (parse_pdta_after_loop defaultConfig) :=
    parse_pdta_listChunk defaultConfig c5Inner (by decide)
  have e2 : parse_pdta ⟨false, false⟩ (mkCursor c5Bytes) =
      (parse_pdta_loop ⟨c5Inner, []⟩ pdta0 (c5Inner.length : Int) (c5Inner.length + 1)).bind
        (parse_pdta_after_loop ⟨false, false⟩) :=
    parse_pdta_listChunk ⟨false, false⟩ c5Inner (by decide)
  refine ⟨?_, ?_⟩
  · rw [e1, c5_loop_eval]
    rfl
  · rw [e2, c5_loop_eval]
    rfl

/-- C5 amended: the default configuration sets ignoreIndexOutOfRange to
true, so an out of range cross reference is logged and decoding continues;
it is fatal only when the caller explicitly passes
ignoreIndexOutOfRange = false. -/
theorem C5_default_is_lenient :
    defaultConfig.ignoreIndexOutOfRange = true ∧
    parse_pdta ⟨false, false⟩ (mkCursor c5Bytes) =
      .error (.outOfRange "wPresetBagNdx" 99 2) ∧
    isOkE (parse_pdta defaultConfig (mkCursor c5Bytes)) = true := by
  have e1 : parse_pdta ⟨false, false⟩ (mkCursor c5Bytes) =
      (parse_pdta_loop ⟨c5Inner, []⟩ pdta0 (c5Inner.length : Int) (c5Inner.length + 1)).bind
        (parse_pdta_after_loop ⟨false, false⟩) :=
    parse_pdta_listChunk ⟨false, false⟩ c5Inner (by decide)
  have e2 : parse_pdta defaultConfig (mkCursor c5Bytes) =
      (parse_pdta_loop ⟨c5Inner, []⟩ pdta0 (c5Inner.length : Int) (c5Inner.length + 1)).bind
        (parse_pdta_after_loop defaultConfig) :=
    parse_pdta_listChunk defaultConfig c5Inner (by decide)
  refine ⟨rfl, ?_, ?_⟩
  · rw [e1, c5_loop_eval]
    rfl
  · rw [e2, c5_loop_eval]
    rfl

/-- C6 counterexample: the claim says that with smpl present and sm24
absent the decoded values equal the raw 16 bit values.  The raw sample 1
decodes to 256, because parse_smpl multiplies by 2 to the 8 regardless of
whether an sm24 chunk exists. -/
theorem C6_counterexample :
    parse_sdta (mkCursor (sdtaSmplStream [1, 0])) =
      .ok (⟨some [256], none, none⟩, ⟨[], []⟩) ∧ (256 : Int) ≠ 1 :=
  ⟨rfl, by decide⟩

/-- C7 counterexample: the claim says every fixed width primitive decode,
the four byte tag read included, fails when fewer bytes remain than
requested.  A tag read over a two byte stream returns the partial string
AB with no error. -/
theorem C7_counterexample :
    FOURCC (mkCursor [65, 66]) = .ok ("AB", ⟨[], []⟩) := rfl

/-- C8: the claim says a ZString decode with no terminator in its width
sets the fault flag and consumes exactly the width.  When the buffer holds
exactly the field width with no null byte the scan reads one byte past the
end and raises IndexError, because the byte test precedes the bound test;
the fault path is only reached when at least one extra byte is buffered. -/
theorem C8_zstr_scan_overruns :
    ZSTR ⟨[], [65, 66, 67]⟩ 3 = .error .indexError ∧
    ZSTR ⟨[], [65, 66, 67, 68]⟩ 3 = .ok (("ABC", true), ⟨[], [68]⟩) :=
  ⟨rfl, rfl⟩

/-- C9: the claim says every record decoder rejects a size that is not a
multiple of its record width with an error naming the enclosing chunk tag,
the size and the width.  phdr at size 39 does cite phdr, 39 and 38, but
the igen decoder names the nonexistent tag pigen instead of igen. -/
theorem C9_size_error_names :
    parse_phdr (mkCursor []) 39 = .error (.sizeNotMultiple "phdr" 39 38) ∧
    parse_igen (mkCursor []) 5 = .error (.sizeNotMultiple "pigen" 5 4) ∧
    ("pigen" : String) ≠ "igen" :=
  ⟨rfl, rfl, by decide⟩

/-- C10: a second occurrence of a declared singular INFO field (isng or
INAM) raises AttributeError while decoding it: the assembler looks up
append on the already stored dict value, so the first value is neither
overwritten nor cleanly kept.  The last conjunct runs a whole INFO LIST
holding two isng chunks. -/
theorem C10_second_singular_occurrence_raises :
    (∀ (cfg : Config) (c : Cursor) (info : Info) (sz : Nat) (r : Isng),
      info.isng = some r → parse_INFO_sub cfg c info "isng" sz = .error .attributeError) ∧
    (∀ (cfg : Config) (c : Cursor) (info : Info) (sz : Nat) (r : StrField),
      info.INAM = some r → parse_INFO_sub cfg c info "INAM" sz = .error .attributeError) ∧
    parse_INFO defaultConfig (mkCursor c10Bytes) = .error .attributeError := by
  refine ⟨?_, ?_, rfl⟩
  · intro cfg c info sz r h
    unfold parse_INFO_sub
    rw [h]
    rfl
  · intro cfg c info sz r h
    unfold parse_INFO_sub
    rw [h]
    rfl

/-- C10 witness: the two universal parts applied to a state whose singular
slots are already filled. -/
theorem C10_second_singular_occurrence_raises_witness :
    parse_INFO_sub defaultConfig (mkCursor []) infoDup "isng" 4 = .error .attributeError ∧
    parse_INFO_sub defaultConfig (mkCursor []) infoDup "INAM" 4 = .error .attributeError :=
  ⟨C10_second_singular_occurrence_raises.1 defaultConfig (mkCursor []) infoDup 4 ⟨"E", "E"⟩ rfl,
   C10_second_singular_occurrence_raises.2.1 defaultConfig (mkCursor []) infoDup 4
     ⟨some "E", "E"⟩ rfl⟩

/-- Requesting exactly the whole remaining stream pulls it all into the
buffer. -/
theorem check_all (l : List Nat) : check ⟨l, []⟩ l.length = ⟨[], l⟩ := by
  rcases l with _ | ⟨b, t⟩
  · rfl
  · unfold check
    rw [if_pos (by simp)]
    simp

/-- parse_smpl over a cursor holding exactly the declared payload returns
every 16 bit sample multiplied by 2 to the 8 with int16 wraparound, and
consumes the whole stream. -/
theorem parse_smpl_exact (bs : List Nat) (h2 : bs.length % 2 = 0) :
    parse_smpl ⟨bs, []⟩ bs.length =
      .ok ((int16sLE bs).map (fun s => wrap16s (s * 256)), ⟨[], []⟩) := by
  unfold parse_smpl
  rw [check_all]
  simp only [List.take_length, List.drop_length]
  unfold frombufferInt16
  rw [if_neg (by omega)]
  rfl

/-- When fewer bytes than requested exist in total, the buffer stays
shorter than the request even after the top up. -/
theorem check_buffer_short (c : Cursor) (n : Nat)
    (h : c.file.length + c.buffer.length < n) : (check c n).buffer.length < n := by
  unfold check
  split
  · simp only [List.length_append, List.length_take]
    omega
  · omega

/-- C6 amended: when the sdta LIST holds an smpl chunk and no sm24 chunk,
the decoded sample values are not the raw 16 bit values: each one is the
raw value multiplied by 2 to the 8, wrapped in int16, because parse_smpl
applies the coarse 24 bit shift unconditionally. -/
theorem C6_amended (bs : List Nat) (h2 : bs.length % 2 = 0)
    (h32 : bs.length + 12 < 4294967296) :
    parse_sdta (mkCursor (sdtaSmplStream bs)) =
      .ok (⟨some ((int16sLE bs).map (fun s => wrap16s (s * 256))), none, none⟩, ⟨[], []⟩) := by
  have hlen8 : (chunkOf "smpl" bs).length = bs.length + 8 := rfl
  have e1 : parse_sdta (mkCursor (sdtaSmplStream bs)) =
      (parse_sdta_loop ⟨chunkOf "smpl" bs, []⟩ ⟨none, none, none⟩
        ((chunkOf "smpl" bs).length : Int) ((chunkOf "smpl" bs).length + 1)).bind
        (fun sc => parse_sdta_merge sc.1 sc.2) :=
    parse_sdta_listChunk (chunkOf "smpl" bs) (by rw [hlen8]; omega)
  have hsm : parse_smpl ⟨bs, []⟩ bs.length =
      .ok ((int16sLE bs).map (fun s => wrap16s (s * 256)), ⟨[], []⟩) :=
    parse_smpl_exact bs h2
  have hloop : parse_sdta_loop ⟨chunkOf "smpl" bs, []⟩ ⟨none, none, none⟩
      ((chunkOf "smpl" bs).length : Int) ((chunkOf "smpl" bs).length + 1) =
      .ok (⟨some ((int16sLE bs).map (fun s => wrap16s (s * 256))), none, none⟩, ⟨[], []⟩) :=
    calc parse_sdta_loop ⟨chunkOf "smpl" bs, []⟩ ⟨none, none, none⟩
          ((chunkOf "smpl" bs).length : Int) ((chunkOf "smpl" bs).length + 1)
        = (parse_smpl ⟨bs, []⟩ (u32val bs.length)).bind
            (fun vc => parse_sdta_loop vc.2 ⟨some vc.1, none, none⟩
              (((chunkOf "smpl" bs).length : Int) - ((u32val bs.length : Int) + 8))
              ((chunkOf "smpl" bs).length)) := by
            rw [parse_sdta_loop, if_pos (show (0 : Int) < ((chunkOf "smpl" bs).length : Int)
              from by rw [hlen8]; omega)]
            rfl
      _ = (parse_smpl ⟨bs, []⟩ bs.length).bind
            (fun vc => parse_sdta_loop vc.2 ⟨some vc.1, none, none⟩
              (((chunkOf "smpl" bs).length : Int) - (((bs.length : Nat) : Int) + 8))
              ((chunkOf "smpl" bs).length)) := by rw [u32val_eq bs.length (by omega)]
      _ = parse_sdta_loop ⟨[], []⟩
            ⟨some ((int16sLE bs).map (fun s => wrap16s (s * 256))), none, none⟩
            (((chunkOf "smpl" bs).length : Int) - (((bs.length : Nat) : Int) + 8))
            ((chunkOf "smpl" bs).length) := by rw [hsm, exceptBind_ok]
      _ = parse_sdta_loop ⟨[], []⟩
            ⟨some ((int16sLE bs).map (fun s => wrap16s (s * 256))), none, none⟩
            0 ((chunkOf "smpl" bs).length) := by
            rw [show ((chunkOf "smpl" bs).length : Int) - (((bs.length : Nat) : Int) + 8) = 0
              from by rw [hlen8]; omega]
      _ = .ok (⟨some ((int16sLE bs).map (fun s => wrap16s (s * 256))), none, none⟩,
            ⟨[], []⟩) := rfl
  rw [e1, hloop, exceptBind_ok]
  rfl

/-- C6 amended witness: the amended theorem applied to the single sample
0x0001, whose decoded value is 256. -/
theorem C6_amended_witness :
    ([1, 0] : List Nat).length % 2 = 0 ∧ ([1, 0] : List Nat).length + 12 < 4294967296 ∧
    parse_sdta (mkCursor (sdtaSmplStream [1, 0])) =
      .ok (⟨some ((int16sLE [1, 0]).map (fun s => wrap16s (s * 256))), none, none⟩, ⟨[], []⟩) :=
  ⟨by decide, by decide, C6_amended [1, 0] (by decide) (by decide)⟩

/-- C7 amended: the numeric primitive decodes built on the buffered check
(u16, i16, u32, u8, i8) fail with the struct unpack error when fewer bytes
remain in the whole stream than requested, but the four byte tag read does
not fail on a short stream: it returns the decode of the bytes that
remain. -/
theorem C7_amended :
    (∀ c : Cursor, c.file.length + c.buffer.length < 2 → WORD c = .error .structError) ∧
    (∀ c : Cursor, c.file.length + c.buffer.length < 2 → SHORT c = .error .structError) ∧
    (∀ c : Cursor, c.file.length + c.buffer.length < 4 → DWORD c = .error .structError) ∧
    (∀ c : Cursor, c.file.length + c.buffer.length < 1 → BYTE c = .error .structError) ∧
    (∀ c : Cursor, c.file.length + c.buffer.length < 1 → CHAR c = .error .structError) ∧
    FOURCC (mkCursor [65, 66]) = .ok ("AB", ⟨[], []⟩) := by
  refine ⟨?_, ?_, ?_, ?_, ?_, rfl⟩
  · intro c h
    have hlen : (check c 2).buffer.length < 2 := check_buffer_short c 2 h
    simp only [WORD]
    rcases hb : (check c 2).buffer with _ | ⟨x, _ | ⟨y, t⟩⟩
    · rfl
    · rfl
    · rw [hb] at hlen
      simp only [List.length_cons] at hlen
      omega
  · intro c h
    have hlen : (check c 2).buffer.length < 2 := check_buffer_short c 2 h
    simp only [SHORT]
    rcases hb : (check c 2).buffer with _ | ⟨x, _ | ⟨y, t⟩⟩
    · rfl
    · rfl
    · rw [hb] at hlen
      simp only [List.length_cons] at hlen
      omega
  · intro c h
    have hlen : (check c 4).buffer.length < 4 := check_buffer_short c 4 h
    simp only [DWORD]
    rcases hb : (check c 4).buffer with _ | ⟨x, _ | ⟨y, _ | ⟨z, _ | ⟨w, t⟩⟩⟩⟩
    · rfl
    · rfl
    · rfl
    · rfl
    · rw [hb] at hlen
      simp only [List.length_cons] at hlen
      omega
  · intro c h
    have hlen : (check c 1).buffer.length < 1 := check_buffer_short c 1 h
    simp only [BYTE]
    rcases hb : (check c 1).buffer with _ | ⟨x, t⟩
    · rfl
    · rw [hb] at hlen
      simp only [List.length_cons] at hlen
      omega
  · intro c h
    have hlen : (check c 1).buffer.length < 1 := check_buffer_short c 1 h
    simp only [CHAR]
    rcases hb : (check c 1).buffer with _ | ⟨x, t⟩
    · rfl
    · rw [hb] at hlen
      simp only [List.length_cons] at hlen
      omega

/-- C7 amended witness: each universal part applied to a concrete short
stream. -/
theorem C7_amended_witness :
    WORD ⟨[5], []⟩ = .error .structError ∧
    SHORT ⟨[5], []⟩ = .error .structError ∧
    DWORD ⟨[1, 2, 3], []⟩ = .error .structError ∧
    BYTE ⟨[], []⟩ = .error .structError ∧
    CHAR ⟨[], []⟩ = .error .structError :=
  ⟨C7_amended.1 ⟨[5], []⟩ (by decide), C7_amended.2.1 ⟨[5], []⟩ (by decide),
   C7_amended.2.2.1 ⟨[1, 2, 3], []⟩ (by decide), C7_amended.2.2.2.1 ⟨[], []⟩ (by decide),
   C7_amended.2.2.2.2.1 ⟨[], []⟩ (by decide)⟩
